import Mathlib

/-!
Verification of the Javelin core (src/Request.js): the `JX.Request` AJAX
transport together with its static registry, and the `JX.Event` normalized
event object with its key-code table. The JavaScript is shallowly embedded:
every member function becomes a pure Lean function on an explicit state
record, platform callbacks (readiness notifications, timer firings, explicit
aborts) become labelled transitions, and the notifications delivered on the
`done` / `error` / `finally` channels are collected into an output list.
-/

namespace JX

/-- A JavaScript value as far as this code discriminates them: `null`
(also standing for `undefined`), booleans, numbers and strings. -/
inductive JSVal where
  | nul
  | bool (b : Bool)
  | num (n : Int)
  | str (s : String)
deriving DecidableEq

/-- JavaScript truthiness of a `JSVal`. -/
def truthy : JSVal → Bool
  | JSVal.nul => false
  | JSVal.bool b => b
  | JSVal.num n => n != 0
  | JSVal.str s => s != ""

/-- Coercion of a `JSVal` to a string, as performed when such a value is
passed to `encodeURIComponent` in `send()`. -/
def jsToString : JSVal → String
  | JSVal.nul => ("null")
  | JSVal.bool true => ("true")
  | JSVal.bool false => ("false")
  | JSVal.num n => toString n
  | JSVal.str s => s

/-- `s.substring(n)` on a string, dropping the first `n` characters. -/
def strDrop (s : String) (n : Nat) : String :=
  String.mk (s.data.drop n)

/-- The test `s.indexOf(p) == 0`, i.e. whether `s` begins with `p`. -/
def beginsWith (s p : String) : Bool :=
  p.data.isPrefixOf s.data

end JX

namespace JX

/-! ## JX.Event: key-code table and getSpecialKey (source lines 331-361) -/

/-- Lookup of a numeric property on an object literal with numeric keys,
as in `JX.Event._keymap[c]` for a number `c`; `none` models `undefined`. -/
def jsGet : List (Int × JSVal) → Int → Option JSVal
  | [], _ => none
  | p :: rest, q => if p.1 = q then some p.2 else jsGet rest q

/-- Property read `t[c]` for an arbitrary `JSVal` index `c`: the keymap has
only numeric keys, so indexing with anything else yields `undefined`. -/
def kmGet (t : List (Int × JSVal)) (c : JSVal) : Option JSVal :=
  match c with
  | JSVal.num n => jsGet t n
  | _ => none

/-- The expression `x || null`: a missing or falsy property collapses to
`null`. -/
def orNull (o : Option JSVal) : JSVal :=
  match o with
  | some v => if truthy v then v else JSVal.nul
  | none => JSVal.nul

/-- The `while` condition `c && t[c]` of the lookup loop in
`getSpecialKey`. -/
def loopCond (t : List (Int × JSVal)) (c : JSVal) : Bool :=
  truthy c && (match kmGet t c with
    | some w => truthy w
    | none => false)

/-- The `do { c = t[c] || null } while (c && t[c])` loop of
`getSpecialKey`, embedded with explicit fuel bounding the number of extra
loop iterations; `none` means the fuel was exhausted before the loop
exited, so the fueled runs never stabilising at a `some` models
divergence of the JavaScript loop. -/
def chase (t : List (Int × JSVal)) : Nat → JSVal → Option JSVal
  | 0, c =>
    if loopCond t (orNull (kmGet t c)) then none
    else some (orNull (kmGet t c))
  | Nat.succ f, c =>
    if loopCond t (orNull (kmGet t c)) then chase t f (orNull (kmGet t c))
    else some (orNull (kmGet t c))

/-- The static `JX.Event._keymap` table, verbatim from the source: eight
primary codes mapping to symbolic names and four alternate codes that
redirect to a primary code. -/
def _keymap : List (Int × JSVal) :=
  [ (8, JSVal.str ("delete")),
    (9, JSVal.str ("tab")),
    (13, JSVal.str ("return")),
    (27, JSVal.str ("esc")),
    (37, JSVal.str ("left")),
    (38, JSVal.str ("up")),
    (39, JSVal.str ("right")),
    (40, JSVal.str ("down")),
    (63232, JSVal.num 38),
    (63233, JSVal.num 40),
    (62234, JSVal.num 37),
    (62235, JSVal.num 39) ]

/-- A raw platform event as `JX.Event` consumes it: the fields written by
`stop()` and `prevent()`, the best-effort method availability flags, and
the key fields read by `getSpecialKey()`. -/
structure RawUIEvent where
  cancelBubble : Bool
  returnValue : Bool
  hasStopPropagation : Bool
  propagationStopped : Bool
  hasPreventDefault : Bool
  defaultPrevented : Bool
  shiftKey : Bool
  keyCode : Int
deriving DecidableEq

/-- The `JX.Event` object restricted to the fields its verified members
touch: the optional raw platform event and the `stopped` / `prevented`
flags.  The remaining properties (type, target, data, path, nodes) are
inert carriers never read or written by `stop` / `prevent` / `kill` /
`getSpecialKey`. -/
structure Event where
  rawEvent : Option RawUIEvent
  stopped : Bool
  prevented : Bool
deriving DecidableEq

/-- `stop()`: set `cancelBubble`, call `stopPropagation` when the platform
provides it, and mark the event stopped (source lines 252-260). -/
def Event.stop (e : Event) : Event :=
  { e with
    rawEvent := e.rawEvent.map (fun r =>
      { r with
        cancelBubble := true,
        propagationStopped := r.hasStopPropagation || r.propagationStopped }),
    stopped := true }

/-- `prevent()`: clear `returnValue`, call `preventDefault` when the
platform provides it, and mark the event prevented (source lines
280-288). -/
def Event.prevent (e : Event) : Event :=
  { e with
    rawEvent := e.rawEvent.map (fun r =>
      { r with
        returnValue := false,
        defaultPrevented := r.hasPreventDefault || r.defaultPrevented }),
    prevented := true }

/-- `kill()`: `this.prevent(); this.stop(); return this` (source lines
299-303). -/
def Event.kill (e : Event) : Event :=
  Event.stop (Event.prevent e)

/-- `getSpecialKey()` (source lines 331-343): `null` when there is no raw
event or a shift modifier is active, otherwise the keymap chase starting
from the raw key code.  The fuel bounds the number of extra loop
iterations, exactly as in `chase`. -/
def Event.getSpecialKey (fuel : Nat) (e : Event) : Option JSVal :=
  match e.rawEvent with
  | none => some JSVal.nul
  | some r =>
    if r.shiftKey then some JSVal.nul
    else chase _keymap fuel (JSVal.num r.keyCode)

/-- A key event with the given shift state and raw key code, as produced
by the (excluded) dispatcher. -/
def mkKeyEvent (shift : Bool) (code : Int) : Event :=
  { rawEvent := some
      { cancelBubble := false, returnValue := true,
        hasStopPropagation := true, propagationStopped := false,
        hasPreventDefault := true, defaultPrevented := false,
        shiftKey := shift, keyCode := code },
    stopped := false, prevented := false }

/-- A misconfigured key table containing a cycle of numeric codes. -/
def cyclicKeymap : List (Int × JSVal) :=
  [ (1, JSVal.num 2), (2, JSVal.num 1) ]

/-- Termination of the `getSpecialKey` lookup loop on table `t` from raw
key code `k`: some fuel suffices for the do-while loop to exit. -/
def chaseHalts (t : List (Int × JSVal)) (k : Int) : Prop :=
  ∃ f, (chase t f (JSVal.num k)).isSome = true

/-- A table value is well-formed when it is a nonempty symbolic name, or a
nonzero numeric redirect whose target resolves to a nonempty name. -/
def goodVal (t : List (Int × JSVal)) : JSVal → Bool
  | JSVal.str s => s != ""
  | JSVal.num m =>
    (m != 0) && (match jsGet t m with
      | some (JSVal.str s) => s != ""
      | _ => false)
  | _ => false

end JX

namespace JX

/-! ## JX.Request: query serialization in send() (source lines 48-81) -/

/-- Property assignment `obj[k] = v` on an object modelled as an
insertion-ordered association list: an existing key is overwritten in
place, a new key is appended.  Used for `data.__async__ = true`. -/
def objSet (obj : List (String × JSVal)) (k : String) (v : JSVal) :
    List (String × JSVal) :=
  match obj with
  | [] => [(k, v)]
  | p :: rest => if p.1 = k then (p.1, v) :: rest else p :: objSet rest k v

/-- One hexadecimal digit, uppercase, as `encodeURIComponent` emits. -/
def hexDigit (n : Nat) : Char :=
  if n < 10 then Char.ofNat (48 + n) else Char.ofNat (55 + n)

/-- Percent-encoding of one byte. -/
def percentByte (b : Nat) : List Char :=
  [Char.ofNat 37, hexDigit (b / 16), hexDigit (b % 16)]

/-- The bytes `encodeURIComponent` leaves unescaped: ASCII alphanumerics
and `- _ . ! ~ * ' ( )`. -/
def isUnreserved (b : Nat) : Bool :=
  (65 ≤ b && b ≤ 90) || (97 ≤ b && b ≤ 122) || (48 ≤ b && b ≤ 57) ||
  b == 45 || b == 95 || b == 46 || b == 33 || b == 126 || b == 42 ||
  b == 39 || b == 40 || b == 41

/-- UTF-8 encoding of one character, as `encodeURIComponent` operates on
the UTF-8 bytes of its argument. -/
def utf8Bytes (c : Char) : List Nat :=
  let n := c.toNat
  if n < 128 then [n]
  else if n < 2048 then [192 + n / 64, 128 + n % 64]
  else if n < 65536 then
    [224 + n / 4096, 128 + (n / 64) % 64, 128 + n % 64]
  else
    [240 + n / 262144, 128 + (n / 4096) % 64, 128 + (n / 64) % 64,
     128 + n % 64]

/-- `encodeURIComponent` on one character: kept verbatim when its single
byte is unreserved, percent-encoded byte by byte otherwise. -/
def encChar (c : Char) : List Char :=
  if c.toNat < 128 && isUnreserved c.toNat then [c]
  else ((utf8Bytes c).map percentByte).flatten

/-- The platform `encodeURIComponent` function. -/
def encodeURIComponent (s : String) : String :=
  String.mk ((s.data.map encChar).flatten)

/-- `Array.prototype.join('&')` over the accumulated `k=v` pairs. -/
def joinAmp : List String → String
  | [] => ""
  | [s] => s
  | s :: rest => s ++ ("&") ++ joinAmp rest

/-- The query string built by `send()` (source lines 48-54): the
`__async__ = true` marker is injected into the payload, then every
key/value pair is URL-encoded and the pairs are ampersand-joined in
insertion order. -/
def buildQuery (data : List (String × JSVal)) : String :=
  joinAmp ((objSet data ("__async__") (JSVal.bool true)).map
    (fun p => encodeURIComponent p.1 ++ ("=") ++
      encodeURIComponent (jsToString p.2)))

/-- `s.indexOf('?') !== -1`, i.e. whether the URI already has a query
component. -/
def hasQuery (uri : String) : Bool :=
  uri.data.contains (Char.ofNat 63)

/-- `s.toUpperCase()`. -/
def strToUpper (s : String) : String :=
  String.mk (s.data.map Char.toUpper)

/-- The request target `send()` passes to `xport.open` (source lines
56-61 and 72): for method GET the query string is appended to the URI,
choosing `?` or `&` depending on whether the URI already contains a query
component; otherwise the URI is unmodified. -/
def requestTarget (method uri : String) (data : List (String × JSVal)) :
    String :=
  if strToUpper method = ("GET") then
    uri ++ (if hasQuery uri then ("&") else ("?")) ++ buildQuery data
  else uri

/-- The request body `send()` passes to `xport.send` (source lines
74-81): the query string for method POST, nothing (`send(null)`)
otherwise. -/
def requestBody (method : String) (data : List (String × JSVal)) :
    Option String :=
  if strToUpper method = ("POST") then some (buildQuery data) else none

/-! ## JX.Request: transport lifecycle state machine -/

/-- The lifecycle state of one `JX.Request` instance.  `sent` records
whether `send()` has run, i.e. whether `_transport` holds a platform
handle rather than its initial `null`; `finished` is the `_finished`
member; `timerActive` records whether the `_timer` deferred call is
scheduled and not yet stopped; `registered` records membership in the
static `_xhr` registry; `raw` and `timeout` are the `raw` and `timeout`
properties. -/
structure Request where
  sent : Bool
  finished : Bool
  timerActive : Bool
  registered : Bool
  raw : Bool
  timeout : Nat
deriving DecidableEq

/-- `construct` (source lines 14-19): a fresh, unsent transport with the
given property configuration. -/
def Request.construct (raw : Bool) (timeout : Nat) : Request :=
  { sent := false, finished := false, timerActive := false,
    registered := false, raw := raw, timeout := timeout }

/-- The state effect of `send()` (source lines 29-82): the platform
handle is created, the transport registers itself in `_xhr`, and if a
truthy timeout is configured a one-shot failure timer is scheduled. -/
def Request.send (s : Request) : Request :=
  { s with
    sent := true,
    registered := true,
    timerActive := s.timeout != 0 }

/-- The response envelope obtained by evaluating the guarded body text:
optional `error`, `payload`, `javelin_metadata`, `javelin_behaviors` and
`onload` fields. -/
structure Resp where
  error : Option JSVal
  payload : Option JSVal
  javelin_metadata : Option JSVal
  javelin_behaviors : Option JSVal
  onload : List String
deriving DecidableEq

/-- The argument delivered on the `done` channel: the whole envelope in
raw mode, only its `payload` field otherwise. -/
inductive DoneArg where
  | whole (r : Resp)
  | payloadOnly (v : Option JSVal)
deriving DecidableEq

/-- One notification on the subscription surface. -/
inductive Notif where
  | done (a : DoneArg)
  | error (a : Option JSVal)
  | finallyEv
deriving DecidableEq

end JX

namespace JX

/-- The literal anti-JSON-hijacking guard `for (;;);` that a valid
response body must begin with. -/
def antiHijack : String := "for (;;);"

/-- `_cleanup` (source lines 164-169): sets `_finished`, deletes the
registry slot, stops the pending timer, then calls `abort()` on the
platform transport handle.  When the transport was never sent,
`_transport` is still `null` and that last call raises a `TypeError`; the
returned flag records whether the call threw.  Note every state mutation
happens before the throwing call, so the mutated state is returned in
either case. -/
def Request._cleanup (s : Request) : Request × Bool :=
  ({ s with finished := true, registered := false, timerActive := false },
   !s.sent)

/-- `_fail` (source lines 144-149): teardown, then an `error`
notification with the optional error value followed by a `finally`
notification.  If the teardown threw, the notifications are never
reached and the exception propagates. -/
def Request._fail (s : Request) (e : Option JSVal) :
    Request × List Notif × Bool :=
  ((Request._cleanup s).1,
   if (Request._cleanup s).2 then [] else [Notif.error e, Notif.finallyEv],
   (Request._cleanup s).2)

/-- `_done` (source lines 151-162): teardown, execution of the `onload`
snippets (a collaborator side effect carrying no transport state), then a
`done` notification with the envelope or its payload according to the
`raw` property, followed by a `finally` notification. -/
def Request._done (s : Request) (r : Resp) :
    Request × List Notif × Bool :=
  ((Request._cleanup s).1,
   if (Request._cleanup s).2 then []
   else [Notif.done (if s.raw then DoneArg.whole r
     else DoneArg.payloadOnly r.payload), Notif.finallyEv],
   (Request._cleanup s).2)

/-- `abort()` (source lines 84-86): exactly `_cleanup`, with no
notification on any channel. -/
def Request.abort (s : Request) : Request × List Notif × Bool :=
  ((Request._cleanup s).1, [], (Request._cleanup s).2)

/-- The observable state of the platform transport handle at a readiness
notification. -/
structure Xhr where
  readyState : Nat
  status : Nat
  responseText : String
deriving DecidableEq

/-- `_onreadystatechange` (source lines 88-142).  `dev` is the `__DEV__`
build flag; `evalJS` models the platform `eval` applied to the
parenthesised body remainder, returning `none` when evaluation throws.
Ignores the notification when already finished or the exchange is
incomplete; fails without error argument on a non-2xx status; in
development mode fails without error argument on an empty body or a
missing anti-hijacking guard (the thrown `Error` is caught by the
enclosing `try`); fails without error argument when evaluation of the
remainder throws; fails with the envelope's `error` value when that field
is truthy; succeeds otherwise. -/
def Request._onreadystatechange (dev : Bool)
    (evalJS : String → Option Resp) (s : Request) (x : Xhr) :
    Request × List Notif × Bool :=
  if s.finished = true then (s, [], false)
  else if x.readyState ≠ 4 then (s, [], false)
  else if x.status < 200 ∨ 300 ≤ x.status then Request._fail s none
  else if dev = true ∧ (x.responseText.length = 0
      ∨ beginsWith x.responseText antiHijack = false) then
    Request._fail s none
  else
    match evalJS (strDrop x.responseText antiHijack.length) with
    | none => Request._fail s none
    | some r =>
      match r.error with
      | some e =>
        if truthy e then Request._fail s (some e) else Request._done s r
      | none => Request._done s r

/-- The static `ERROR_TIMEOUT` sentinel (source line 185). -/
def ERROR_TIMEOUT : Int := -9000

/-- The platform occurrences that can reach a sent transport: a readiness
notification from the platform handle, the firing of the deferred timeout
(which `JX.defer` delivers only while the timer has not been stopped),
and an explicit `abort()` call. -/
inductive Trigger where
  | ready (x : Xhr)
  | timer
  | abortCall
deriving DecidableEq

/-- One transition of a transport: the new state, the notifications
delivered, and whether an exception escaped. -/
def Request.step (dev : Bool) (evalJS : String → Option Resp)
    (s : Request) : Trigger → Request × List Notif × Bool
  | Trigger.ready x => Request._onreadystatechange dev evalJS s x
  | Trigger.timer =>
    if s.timerActive = true then
      Request._fail s (some (JSVal.num ERROR_TIMEOUT))
    else (s, [], false)
  | Trigger.abortCall => Request.abort s

/-- The states a transport can be in once sent: `send()` has run on a
freshly constructed transport (with any property configuration), followed
by any sequence of platform occurrences. -/
inductive Request.Reach (dev : Bool) (evalJS : String → Option Resp) :
    Request → Prop where
  | start (r : Bool) (T : Nat) :
      Request.Reach dev evalJS (Request.send (Request.construct r T))
  | more {s : Request} (h : Request.Reach dev evalJS s) (e : Trigger) :
      Request.Reach dev evalJS (Request.step dev evalJS s e).1

/-- `shutdown` (source lines 175-184): sweep the `_xhr` registry (an
array with holes left by `delete`), calling `abort()` on every present
member inside a per-member `try` that swallows its exception, then reset
the registry to the empty array.  Returns the member states after the
sweep and the registry afterwards. -/
def Request.shutdown (reg : List (Option Request)) :
    List (Option Request) × List (Option Request) :=
  (reg.map (fun o => o.map (fun t => (Request.abort t).1)), [])

/-- Evaluator that models `eval` throwing on every body remainder. -/
def evalNone : String → Option Resp := fun _ => none

/-- Evaluator fragment of the platform `eval`: the remainder text of the
counterexample body is an empty object literal, which evaluates to an
envelope with every field absent; everything else throws. -/
def evalToy : String → Option Resp :=
  fun t =>
    if t = ("\x7b\x7d") then
      some { error := none, payload := none, javelin_metadata := none,
             javelin_behaviors := none, onload := [] }
    else none

end JX

namespace JX

/-- A transport that has been constructed (raw mode off, no timeout) and
sent, and has seen nothing since. -/
def reqSent : Request := Request.send (Request.construct false 0)

/-- A transport sent with a configured timeout of five milliseconds. -/
def reqTimed : Request := Request.send (Request.construct false 5)

/-- A sent transport on which `abort()` has then been called. -/
def reqAborted : Request :=
  (Request.step false evalNone (Request.send (Request.construct false 0))
    Trigger.abortCall).1

/-- A completed platform exchange with a nominal status and an empty
body. -/
def xhrEmpty : Xhr := { readyState := 4, status := 200, responseText := ("") }

/-- A completed platform exchange with a nominal status whose body does
not begin with the anti-hijacking guard, yet whose remainder after the
nine stripped characters is a valid object literal. -/
def xhrNoGuard : Xhr :=
  { readyState := 4, status := 200,
    responseText := ("AAAAAAAAA\x7b\x7d") }

end JX

open JX

/-! ## Helper lemmas for the key-code chase -/

lemma jsGet_mem : ∀ (t : List (Int × JSVal)) (q : Int) (v : JSVal),
    jsGet t q = some v → (q, v) ∈ t := by
  intro t
  induction t with
  | nil => intro q v h; simp [jsGet] at h
  | cons p rest ih =>
    intro q v h
    rcases p with ⟨pk, pv⟩
    by_cases hq : pk = q
    · simp [jsGet, hq] at h
      subst hq
      subst h
      exact List.mem_cons_self _ _
    · simp [jsGet, hq] at h
      exact List.mem_cons_of_mem _ (ih q v h)

lemma keymap_good : ∀ p ∈ _keymap, goodVal _keymap p.2 = true := by decide

lemma chase_stop {t : List (Int × JSVal)} {c : JSVal}
    (h : loopCond t (orNull (kmGet t c)) = false) :
    ∀ f, chase t f c = some (orNull (kmGet t c)) := by
  intro f
  cases f <;> simp [chase, h]

lemma chase_go {t : List (Int × JSVal)} {c : JSVal}
    (h : loopCond t (orNull (kmGet t c)) = true) :
    ∀ f, chase t (f + 1) c = chase t f (orNull (kmGet t c)) := by
  intro f
  simp [chase, h]

/-- Claim C9: for every `JX.Event`, `kill()` is exactly the composition of
`prevent()` then `stop()` (and returns the resulting event itself); after
`kill()` both the `stopped` and `prevented` flags are true, while
`prevent()` alone leaves the `stopped` flag exactly as it was (in
particular false on a fresh event). -/
theorem claim_C9_thm (e : Event) :
    Event.kill e = Event.stop (Event.prevent e)
    ∧ (Event.kill e).stopped = true
    ∧ (Event.kill e).prevented = true
    ∧ (Event.prevent e).stopped = e.stopped :=
  ⟨rfl, rfl, rfl, rfl⟩

/-- Claim C8: `getSpecialKey()` returns the symbolic name of the down
arrow for both divergent raw codes 40 (primary) and 63233 (alternate,
redirecting to 40), independently of the loop-iteration fuel, and returns
`null` whenever a shift modifier is active, regardless of the key code. -/
theorem claim_C8_thm :
    (∀ f, Event.getSpecialKey (f + 1) (mkKeyEvent false 40)
      = some (JSVal.str ("down")))
    ∧ (∀ f, Event.getSpecialKey (f + 1) (mkKeyEvent false 63233)
      = some (JSVal.str ("down")))
    ∧ (∀ f, ∀ k : Int, Event.getSpecialKey f (mkKeyEvent true k)
      = some JSVal.nul) := by
  refine ⟨?_, ?_, ?_⟩
  · intro f
    show chase _keymap (f + 1) (JSVal.num 40) = some (JSVal.str ("down"))
    rw [chase_stop (by decide) (f + 1)]
    decide
  · intro f
    show chase _keymap (f + 1) (JSVal.num 63233) = some (JSVal.str ("down"))
    rw [chase_go (by decide) f]
    rw [show orNull (kmGet _keymap (JSVal.num 63233)) = JSVal.num 40 by decide]
    rw [chase_stop (by decide) f]
    decide
  · intro f k
    simp [Event.getSpecialKey, mkKeyEvent]

/-- On the shipped `_keymap`, one extra loop iteration of fuel always
suffices and the result is independent of any further fuel: the chase from
every raw key code stabilises after at most one numeric-to-numeric
indirection. -/
lemma keymap_chase_stable : ∀ k : Int, ∃ v : JSVal,
    ∀ f : Nat, chase _keymap (f + 1) (JSVal.num k) = some v := by
  intro k
  cases h : jsGet _keymap k with
  | none =>
    refine ⟨JSVal.nul, ?_⟩
    intro f
    have hc : loopCond _keymap (orNull (kmGet _keymap (JSVal.num k))) = false := by
      simp [kmGet, h, orNull, loopCond, truthy]
    rw [chase_stop hc (f + 1)]
    simp [kmGet, h, orNull]
  | some v =>
    have hgood : goodVal _keymap v = true :=
      keymap_good (k, v) (jsGet_mem _ _ _ h)
    cases v with
    | nul => simp [goodVal] at hgood
    | bool b => simp [goodVal] at hgood
    | str s =>
      refine ⟨JSVal.str s, ?_⟩
      intro f
      have hs : (s != "") = true := hgood
      have ho : orNull (kmGet _keymap (JSVal.num k)) = JSVal.str s := by
        simp [kmGet, h, orNull, truthy, hs]
      have hc : loopCond _keymap (orNull (kmGet _keymap (JSVal.num k))) = false := by
        rw [ho]; simp [loopCond, kmGet]
      rw [chase_stop hc (f + 1), ho]
    | num m =>
      simp only [goodVal, Bool.and_eq_true] at hgood
      rcases hgood with ⟨hm, hlook⟩
      cases hj : jsGet _keymap m with
      | none => rw [hj] at hlook; simp at hlook
      | some w =>
        rw [hj] at hlook
        cases w with
        | nul => simp at hlook
        | bool b => simp at hlook
        | num n => simp at hlook
        | str s =>
          have hs : (s != "") = true := hlook
          refine ⟨JSVal.str s, ?_⟩
          intro f
          have ho : orNull (kmGet _keymap (JSVal.num k)) = JSVal.num m := by
            simp [kmGet, h, orNull, truthy, hm]
          have hc : loopCond _keymap (orNull (kmGet _keymap (JSVal.num k))) = true := by
            rw [ho]
            simp [loopCond, kmGet, hj, truthy, hm, hs]
          rw [chase_go hc f, ho]
          have ho2 : orNull (kmGet _keymap (JSVal.num m)) = JSVal.str s := by
            simp [kmGet, hj, orNull, truthy, hs]
          have hc2 : loopCond _keymap (orNull (kmGet _keymap (JSVal.num m))) = false := by
            rw [ho2]; simp [loopCond, kmGet]
          rw [chase_stop hc2 f, ho2]

/-- On the cyclic misconfigured table, the chase starting from either code
of the cycle never exits the loop, whatever the fuel. -/
lemma cyclic_chase_none : ∀ f : Nat,
    chase cyclicKeymap f (JSVal.num 1) = none
    ∧ chase cyclicKeymap f (JSVal.num 2) = none := by
  intro f
  induction f with
  | zero => exact ⟨by decide, by decide⟩
  | succ f ih =>
    constructor
    · rw [chase_go (by decide) f]
      rw [show orNull (kmGet cyclicKeymap (JSVal.num 1)) = JSVal.num 2 by decide]
      exact ih.2
    · rw [chase_go (by decide) f]
      rw [show orNull (kmGet cyclicKeymap (JSVal.num 2)) = JSVal.num 1 by decide]
      exact ih.1

/-- Claim C4 (counterexample): the claim asserts that the `getSpecialKey`
lookup terminates for every raw key code even on a misconfigured table
containing a cycle of numeric codes.  On the two-element cyclic table the
do-while chase from code 1 never exits, whatever fuel it is given, so the
lookup as implemented does not terminate there. -/
theorem claim_C4_cex : ¬ chaseHalts cyclicKeymap 1 := by
  intro hex
  rcases hex with ⟨f, hf⟩
  rw [(cyclic_chase_none f).1] at hf
  simp at hf

/-- Claim C4 (amended): `getSpecialKey()` resolves the raw key code with
an unbounded do-while chase, not a fixed two-level lookup; on the shipped
key table this chase terminates for every raw key code and follows at most
one numeric-to-numeric indirection (one loop iteration of fuel always
suffices and the answer never changes with more fuel), but on a
misconfigured table with a numeric cycle the chase diverges. -/
theorem claim_C4_thm : ∀ k : Int,
    chaseHalts _keymap k
    ∧ ∃ v : JSVal, ∀ f : Nat, chase _keymap (f + 1) (JSVal.num k) = some v := by
  intro k
  rcases keymap_chase_stable k with ⟨v, hv⟩
  exact ⟨⟨1, by rw [hv 0]; rfl⟩, v, hv⟩


/-! ## Helper lemmas for the transport lifecycle -/

lemma cleanup_fst_sent (s : Request) :
    (Request._cleanup s).1.sent = s.sent := rfl

lemma cleanup_fst_timer (s : Request) :
    (Request._cleanup s).1.timerActive = false := rfl

lemma cleanup_fst_finished (s : Request) :
    (Request._cleanup s).1.finished = true := rfl

lemma step_fst (dev : Bool) (evalJS : String → Option Resp)
    (s : Request) (e : Trigger) :
    (Request.step dev evalJS s e).1 = s
    ∨ (Request.step dev evalJS s e).1 = (Request._cleanup s).1 := by
  cases e with
  | ready x =>
    show (Request._onreadystatechange dev evalJS s x).1 = s
      ∨ (Request._onreadystatechange dev evalJS s x).1 = (Request._cleanup s).1
    unfold Request._onreadystatechange
    split
    · exact Or.inl rfl
    · split
      · exact Or.inl rfl
      · split
        · exact Or.inr rfl
        · split
          · exact Or.inr rfl
          · split
            · exact Or.inr rfl
            · split
              · split
                · exact Or.inr rfl
                · exact Or.inr rfl
              · exact Or.inr rfl
  | timer =>
    simp only [Request.step]
    split
    · exact Or.inr rfl
    · exact Or.inl rfl
  | abortCall => exact Or.inr rfl

lemma reach_inv {dev : Bool} {evalJS : String → Option Resp} {s : Request}
    (h : Request.Reach dev evalJS s) :
    s.sent = true ∧ (s.finished = true → s.timerActive = false) := by
  induction h with
  | start r T =>
    refine ⟨rfl, ?_⟩
    intro hf
    simp [Request.send, Request.construct] at hf
  | more h e ih =>
    rcases step_fst dev evalJS _ e with heq | heq <;> rw [heq]
    · exact ih
    · exact ⟨by rw [cleanup_fst_sent]; exact ih.1, fun _ => cleanup_fst_timer _⟩

/-! ## Claims about the transport lifecycle -/

/-- Claim C2: once a sent transport's finished flag is true, no
subscriber callback fires again — a later readiness notification, a later
timeout firing, and a later explicit `abort()` all deliver no
notification on any of the done / error / finally channels. -/
theorem claim_C2_thm (dev : Bool) (evalJS : String → Option Resp)
    (s : Request) (h : Request.Reach dev evalJS s)
    (hf : s.finished = true) (e : Trigger) :
    (Request.step dev evalJS s e).2.1 = [] := by
  cases e with
  | ready x =>
    show (Request._onreadystatechange dev evalJS s x).2.1 = []
    unfold Request._onreadystatechange
    rw [if_pos hf]
  | timer =>
    have ht : s.timerActive = false := (reach_inv h).2 hf
    simp [Request.step, ht]
  | abortCall => rfl

/-- Witness for C2 at a concrete finished transport (sent, then aborted)
receiving a late timer firing. -/
theorem claim_C2_wit :
    (Request.step false evalNone reqAborted Trigger.timer).2.1 = [] :=
  claim_C2_thm false evalNone reqAborted
    (Request.Reach.more (Request.Reach.start false 0) Trigger.abortCall)
    rfl Trigger.timer

/-- Claim C3: when the timeout timer of a sent transport fires while
neither success nor failure has occurred, the failure path runs with the
reserved sentinel -9000 as the error argument — delivering exactly an
error notification carrying the sentinel followed by a finally
notification, with no exception — the transport is then finished with its
timer stopped, and afterwards neither a network completion nor another
timer firing delivers any further notification. -/
theorem claim_C3_thm (dev : Bool) (evalJS : String → Option Resp)
    (s : Request) (h : Request.Reach dev evalJS s)
    (_hf : s.finished = false) (ht : s.timerActive = true) :
    (Request.step dev evalJS s Trigger.timer).2.1
      = [Notif.error (some (JSVal.num ERROR_TIMEOUT)), Notif.finallyEv]
    ∧ (Request.step dev evalJS s Trigger.timer).2.2 = false
    ∧ (Request.step dev evalJS s Trigger.timer).1.finished = true
    ∧ (Request.step dev evalJS s Trigger.timer).1.timerActive = false
    ∧ (∀ x, (Request.step dev evalJS
        (Request.step dev evalJS s Trigger.timer).1 (Trigger.ready x)).2.1 = [])
    ∧ (Request.step dev evalJS
        (Request.step dev evalJS s Trigger.timer).1 Trigger.timer).2.1 = [] := by
  have hs : s.sent = true := (reach_inv h).1
  have hstep : Request.step dev evalJS s Trigger.timer
      = Request._fail s (some (JSVal.num ERROR_TIMEOUT)) := by
    simp [Request.step, ht]
  rw [hstep]
  have hnothrow : (Request._cleanup s).2 = false := by
    simp [Request._cleanup, hs]
  refine ⟨?_, ?_, ?_, ?_, ?_, ?_⟩
  · simp [Request._fail, hnothrow]
  · simp [Request._fail, hnothrow]
  · rfl
  · rfl
  · intro x
    show (Request._onreadystatechange dev evalJS
      (Request._fail s (some (JSVal.num ERROR_TIMEOUT))).1 x).2.1 = []
    unfold Request._onreadystatechange
    rw [if_pos (show (Request._fail s
      (some (JSVal.num ERROR_TIMEOUT))).1.finished = true from rfl)]
  · simp [Request.step, Request._fail, cleanup_fst_timer]

/-- Witness for C3 at a concrete sent transport with a configured timeout
whose timer fires before any completion, followed by a late network
completion. -/
theorem claim_C3_wit :
    (Request.step false evalNone reqTimed Trigger.timer).2.1
      = [Notif.error (some (JSVal.num ERROR_TIMEOUT)), Notif.finallyEv]
    ∧ (Request.step false evalNone
        (Request.step false evalNone reqTimed Trigger.timer).1
        (Trigger.ready xhrEmpty)).2.1 = [] :=
  ⟨(claim_C3_thm false evalNone reqTimed (Request.Reach.start false 5)
      rfl rfl).1,
   (claim_C3_thm false evalNone reqTimed (Request.Reach.start false 5)
      rfl rfl).2.2.2.2.1 xhrEmpty⟩

/-- Claim C5: on every sent transport, teardown is idempotent — a first
`abort()` delivers no notification and raises no exception, and a second
`abort()` (equally, an `abort()` after the transport has already finished,
since the state is only assumed sent) again delivers no notification and
raises no exception. -/
theorem claim_C5_thm (s : Request) (hs : s.sent = true) :
    (Request.abort s).2.1 = [] ∧ (Request.abort s).2.2 = false
    ∧ (Request.abort (Request.abort s).1).2.1 = []
    ∧ (Request.abort (Request.abort s).1).2.2 = false := by
  refine ⟨rfl, ?_, rfl, ?_⟩
  · simp [Request.abort, Request._cleanup, hs]
  · simp [Request.abort, Request._cleanup, hs]

/-- Witness for C5: double abort on a concrete transport that completed
naturally (success) after being sent. -/
theorem claim_C5_wit :
    (Request.abort (Request.abort reqSent).1).2.1 = []
    ∧ (Request.abort (Request.abort reqSent).1).2.2 = false :=
  ⟨(claim_C5_thm reqSent rfl).2.2.1, (claim_C5_thm reqSent rfl).2.2.2⟩

/-- Claim C10: calling `abort()` on a transport that was constructed but
never sent raises an exception instead of completing as a no-op — the
teardown path unconditionally calls `abort` on the platform handle, which
is still null — while the state mutations preceding the throwing call
(among them setting the finished flag) do take effect and no notification
is delivered. -/
theorem claim_C10_thm (r : Bool) (T : Nat) :
    (Request.abort (Request.construct r T)).2.2 = true
    ∧ (Request.abort (Request.construct r T)).2.1 = []
    ∧ (Request.abort (Request.construct r T)).1.finished = true := by
  exact ⟨rfl, rfl, rfl⟩

/-- Claim C6: `shutdown` reaches every registered transport even when
some aborts throw — after the sweep every present member has been torn
down (its finished flag is set, the per-member exception having been
swallowed), no member is skipped (the sweep output matches the registry
in length, with holes preserved), and the registry afterwards is
empty. -/
theorem claim_C6_thm (reg : List (Option Request)) :
    (Request.shutdown reg).2 = []
    ∧ (Request.shutdown reg).1.length = reg.length
    ∧ ((Request.shutdown reg).1.all
        (fun o => ((o.map (fun t => t.finished)).getD true))) = true := by
  refine ⟨rfl, by simp [Request.shutdown], ?_⟩
  simp only [Request.shutdown, List.all_map, List.all_eq_true]
  intro o ho
  cases o with
  | none => rfl
  | some t => rfl

/-- Claim C1 (amended): with development-mode validation enabled
(`__DEV__` true), processing a completed response (readiness 4) on a live
sent transport whose body does not begin with the literal guard
`for (;;);` — including an empty body — always delivers exactly a failure
notification with no error argument followed by the finally notification,
and never a success notification, whatever the platform evaluator and the
HTTP status.  (With `__DEV__` false the guard is not checked and the
claim fails; see the counterexample.) -/
theorem claim_C1_thm (evalJS : String → Option Resp) (s : Request)
    (x : Xhr) (hs : s.sent = true) (hf : s.finished = false)
    (h4 : x.readyState = 4)
    (hp : beginsWith x.responseText antiHijack = false) :
    (Request._onreadystatechange true evalJS s x).2.1
      = [Notif.error none, Notif.finallyEv]
    ∧ ∀ a, Notif.done a ∉ (Request._onreadystatechange true evalJS s x).2.1 := by
  have hnothrow : (Request._cleanup s).2 = false := by
    simp [Request._cleanup, hs]
  have hmain : (Request._onreadystatechange true evalJS s x).2.1
      = [Notif.error none, Notif.finallyEv] := by
    unfold Request._onreadystatechange
    rw [if_neg (by simp [hf]), if_neg (by simp [h4])]
    split
    · simp [Request._fail, hnothrow]
    · rw [if_pos ⟨rfl, Or.inr hp⟩]
      simp [Request._fail, hnothrow]
  refine ⟨hmain, ?_⟩
  intro a
  rw [hmain]
  simp

/-- Witness for C1 (amended) at a concrete sent transport receiving a
completed 200 response with an empty body. -/
theorem claim_C1_wit :
    (Request._onreadystatechange true evalToy reqSent xhrEmpty).2.1
      = [Notif.error none, Notif.finallyEv] :=
  (claim_C1_thm evalToy reqSent xhrEmpty rfl rfl rfl rfl).1

/-- Claim C1 (counterexample): with development-mode validation disabled
(`__DEV__` false, the production build), the guard prefix is never
checked — the first nine characters of the body are stripped blindly.  A
200 response whose body is nine junk characters followed by an object
literal, processed on a live sent transport, delivers a success
notification on the done channel, refuting the claim that a body not
beginning with `for (;;);` never produces one. -/
theorem claim_C1_cex :
    beginsWith xhrNoGuard.responseText antiHijack = false
    ∧ (Request._onreadystatechange false evalToy reqSent xhrNoGuard).2.1
      = [Notif.done (DoneArg.payloadOnly none), Notif.finallyEv] := by
  constructor
  · decide
  · decide

/-- Claim C7: for method GET with payload mapping the single key a to the
string 1 and URI http://x/y, `send()` produces the request target
http://x/y?a=1&__async__=true — the payload key serialized before the
injected `__async__` marker, with `?` chosen as separator since the URI
has no query component — and sends no request body. -/
theorem claim_C7_thm :
    requestTarget ("GET") ("http://x/y")
      [(("a" : String), JSVal.str ("1"))]
      = ("http://x/y?a=1&__async__=true")
    ∧ requestBody ("GET") [(("a" : String), JSVal.str ("1"))]
      = none := by
  constructor
  · decide
  · decide
